import Mathlib

/-
Verification of the simulation-manager repository (src/manager.py, src/example.py).

The Python code is shallowly embedded: JSON-style values become the inductive
type `Value`, Python dicts become association lists (`Dict`) with Python's
first-match lookup and in-place `dset`/`dupdate` semantics, and the stateful
constructor `SimulationManager.__init__` becomes a pure function `init` that
threads an explicit store of dict objects (so aliasing of the caller's config
dict is observable) and returns the ordered list of side effects (`Event`)
performed up to the point of success or of the first raised exception.
Numeric literals from the source are represented as rationals.
-/

/-- A Python/JSON value as used by the configuration dictionaries. -/
inductive Value where
  | vstr : String → Value
  | vint : Int → Value
  | vnum : ℚ → Value
  | vbool : Bool → Value
  | vnull : Value
  | vlist : List Value → Value
  | vdict : List (String × Value) → Value

/-- A Python dict: an association list in insertion order (keys unique in any
dict produced by the Python runtime). -/
abbrev Dict := List (String × Value)

/-- A heap of dict objects; indices play the role of object identity, so that
`self.config = config` (aliasing, not copying) is observable. -/
abbrev Store := List Dict

/-- Python `d[k]` read: first binding of the key wins. -/
def dlookup : Dict → String → Option Value
  | [], _ => none
  | (k', v) :: rest, k => if k' = k then some v else dlookup rest k

/-- Python `d[k] = v`: replace the binding in place if the key exists, else
append at the end (dict insertion-order semantics). -/
def dset : Dict → String → Value → Dict
  | [], k, v => [(k, v)]
  | (k', v') :: rest, k, v =>
      if k' = k then (k, v) :: rest else (k', v') :: dset rest k v

/-- Python `d.copy()` followed by `d.update(u)`: set every binding of `u`
into (a copy of) `d`, in order. -/
def dupdate (d u : Dict) : Dict :=
  u.foldl (fun acc kv => dset acc kv.1 kv.2) d

/-- Python truthiness (`bool(v)`). -/
def truthy : Value → Bool
  | .vstr s => !s.isEmpty
  | .vint n => decide (n ≠ 0)
  | .vnum q => decide (q ≠ 0)
  | .vbool b => b
  | .vnull => false
  | .vlist l => !l.isEmpty
  | .vdict d => !d.isEmpty

/-- Python substring containment: `pat in s` for strings. -/
def strHasSub (s pat : String) : Bool :=
  s.toList.tails.any (fun t => pat.toList.isPrefixOf t)

/-- posixpath.join for two components: an absolute second component wins;
otherwise a separator is inserted unless the first component is empty or
already ends in one. -/
def joinPath (a b : String) : String :=
  if b.toList.head? = some '/' then b
  else if a = "" ∨ a.toList.getLast? = some '/' then a ++ b
  else a ++ "/" ++ b

/-- posixpath.dirname: everything up to the last separator, with trailing
separators stripped unless the result is all separators. -/
def dirname (p : String) : String :=
  let cs := p.toList
  let head := (cs.reverse.dropWhile (fun c => c ≠ '/')).reverse
  if head ≠ [] ∧ head.any (fun c => c ≠ '/') then
    String.mk ((head.reverse.dropWhile (fun c => c = '/')).reverse)
  else
    String.mk head

/-- Python `int(s)` on an optionally signed decimal string with surrounding
whitespace (the forms exercised by the example's command line). -/
def pyIntParse (s : String) : Option Int :=
  let cs := ((s.toList.dropWhile Char.isWhitespace).reverse.dropWhile
      Char.isWhitespace).reverse
  let core : List Char → Option Int := fun ds =>
    if ds ≠ [] ∧ ds.all Char.isDigit then
      some (ds.foldl (fun a c => 10 * a + ((c.toNat : Int) - 48)) 0)
    else none
  match cs with
  | '-' :: rest => (core rest).map (fun n => -n)
  | '+' :: rest => core rest
  | rest => core rest

/-- The Python exceptions that `SimulationManager.__init__` can raise. -/
inductive PyError where
  | valueError : String → PyError
  | keyError : String → PyError
  | assertionError : String → PyError
  | typeError : String → PyError

/-- One observable side effect of construction, in program order. -/
inductive Event where
  | seedRandom : Int → Event
  | makedirs : String → Event
  | logBasicConfig : String → Bool → Event
  | openTrunc : String → Event
  | fileWrite : String → String → Event
  | stdoutVal : Value → Event
  | stdoutLine : String → Event
  | h5write : String → Event
  | jsonDump : String → Dict → Event
  | logInfoMsg : String → Event

/-- The ambient world: which paths are existing files (with their parsed JSON
dict), and the wall clock formatted with strftime format YMD_HMS. -/
structure Env where
  files : String → Option Dict
  now : String

/-- The `default_params` class attribute of the invoking subclass: it may be
absent, bound to a non-dict value, or bound to a dict. -/
inductive Attr where
  | absent : Attr
  | nonDict : Value → Attr
  | attrDict : Dict → Attr

/-- The `config` argument of `__init__`: a reference to an in-memory dict
object in the store, a string, or any other Python object. -/
inductive ConfigSource where
  | ref : Nat → ConfigSource
  | path : String → ConfigSource
  | other : ConfigSource

/-- Instance attributes of a fully constructed `SimulationManager`. `attrs`
records the parameter attributes materialized by the `setattr` loop. -/
structure Mgr where
  configRef : Nat
  params : Dict
  attrs : Dict
  trial : Int
  data_loc : String
  sim_dir : String
  sim_path : String
  hdf5_path : String

/-- Attributes set by `_setup_directories`, plus the Readme text it wrote. -/
structure DirsOut where
  data_loc : String
  sim_dir : String
  sim_path : String
  hdf5_path : String
  readme : String

/-- Outcome of `__init__`: result or exception, the final store of dict
objects, and the side effects performed (also on the failing paths). -/
structure InitResult where
  result : Except PyError Mgr
  store : Store
  events : List Event

def configErrMsg : String :=
  "Config must be a dictionary or a valid path to a JSON file."

def assertMsg : String :=
  "must have a dictionary \x27default_params\x27!"

def noneIterableMsg : String :=
  "argument of type \x27NoneType\x27 is not iterable"

def updateMsg : String :=
  "dict.update argument is not a mapping"

def writeStrMsg : String :=
  "write argument must be str"

namespace SimulationManager

/-- Embedding of `SimulationManager._set_config` (src/manager.py lines
69-92): load the config from a dict object or a JSON file path (else
ValueError), assert the subclass's `default_params` is a dict, and build
`self.params` as a copy of the defaults updated with `config[\x27params\x27]`
(KeyError when that key is missing). Returns the store, the reference held in
`self.config`, its current value, and `self.params`. -/
def set_config (store : Store) (src : ConfigSource) (dp : Attr) (env : Env) :
    Except PyError (Store × Nat × Dict × Dict) :=
  let loaded : Except PyError (Store × Nat) :=
    match src with
    | .ref r => .ok (store, r)
    | .path p =>
      match env.files p with
      | some d => .ok (store ++ [d], store.length)
      | none => .error (.valueError configErrMsg)
    | .other => .error (.valueError configErrMsg)
  match loaded with
  | .error e => .error e
  | .ok (store1, r) =>
    let cfg := store1.getD r []
    match dp with
    | .attrDict dpd =>
      match dlookup cfg "params" with
      | some (.vdict ps) => .ok (store1, r, cfg, dupdate dpd ps)
      | some _ => .error (.typeError updateMsg)
      | none => .error (.keyError "params")
    | _ => .error (.assertionError assertMsg)

/-- Embedding of `SimulationManager._setup_logging` (lines 139-157): a single
`logging.basicConfig` call targeting `sim_path/sim.log`, at DEBUG level
exactly when `log_info` contains the substring "debug". -/
def setup_logging (sim_path li : String) : Event :=
  .logBasicConfig (joinPath sim_path "sim.log") (strHasSub li "debug")

/-- The value assigned to `self.sim_dir` (lines 104-111): the literal "test"
when `log_info` contains "test"; else `config[\x27sim_dir\x27]` when present
and truthy; else the timestamp name. -/
def resolveSimDirV (cfg : Dict) (li : String) (env : Env) : Value :=
  if strHasSub li "test" then .vstr "test"
  else
    match dlookup cfg "sim_dir" with
    | some v => if truthy v then v else .vstr ("sim_" ++ env.now)
    | none => .vstr ("sim_" ++ env.now)

/-- Embedding of `SimulationManager._setup_directories` (lines 94-137), in
source order: read `config[\x27data_loc\x27]` (KeyError if absent); test
`\x27test\x27 in log_info` (TypeError when `log_info` is None); resolve the
directory name; join the trial path (TypeError if a component is not a
string); makedirs; configure logging; open the Readme for writing
(truncating); `print(config[\x27description\x27])` (KeyError if absent); pick
the description or the fallback literal; write it; create the empty HDF5
file; log. Returns the events performed even when an exception escapes. -/
def setup_directories (cfg : Dict) (trial : Int) (log_info : Option String)
    (env : Env) : Except PyError DirsOut × List Event :=
  match dlookup cfg "data_loc" with
  | none => (.error (.keyError "data_loc"), [])
  | some dlv =>
    match log_info with
    | none => (.error (.typeError noneIterableMsg), [])
    | some li =>
      match dlv, resolveSimDirV cfg li env with
      | .vstr dl, .vstr simDir =>
        let sim_path := joinPath (joinPath dl simDir) ("trial_" ++ toString trial)
        let readme_path := joinPath (dirname sim_path) "Readme.md"
        let evB := [Event.makedirs sim_path, setup_logging sim_path li,
                    Event.openTrunc readme_path]
        match dlookup cfg "description" with
        | none => (.error (.keyError "description"), evB)
        | some dv =>
          let evC := evB ++ [Event.stdoutVal dv] ++
            (if truthy dv then [Event.stdoutLine "dlfghsdkljfghsldkfg"] else [])
          let descE : Except PyError String :=
            if truthy dv then
              match dv with
              | .vstr ds => .ok ds
              | _ => .error (.typeError writeStrMsg)
            else .ok "No description provided."
          match descE with
          | .error e => (.error e, evC)
          | .ok desc =>
            let hdf5_path := joinPath sim_path ("data_" ++ toString trial ++ ".hdf5")
            (.ok ⟨dl, simDir, sim_path, hdf5_path, desc⟩,
             evC ++ [Event.fileWrite readme_path desc, Event.h5write hdf5_path,
               Event.logInfoMsg ("Simulation directory: \x27" ++ sim_path ++ "\x27.")])
      | _, _ => (.error (.typeError "join argument must be str"), [])

/-- Embedding of `SimulationManager._save_config` (lines 159-172): mutate the
dict object referenced by `self.config`, replacing its `params` entry with
`self.params`, then dump it to `config.json` next to the trial directory. -/
def save_config (store : Store) (cfgRef : Nat) (params : Dict)
    (sim_path : String) : Store × List Event :=
  let cfg2 := dset (store.getD cfgRef []) "params" (.vdict params)
  let config_path := joinPath (dirname sim_path) "config.json"
  (store.set cfgRef cfg2,
   [.jsonDump config_path cfg2,
    .logInfoMsg ("Saved config to \x27" ++ config_path ++ "\x27.")])

/-- The value of `self.trial` (line 56): `seed if seed else 1`. -/
def trialOf : Option Int → Int
  | none => 1
  | some n => if n = 0 then 1 else n

/-- Embedding of `SimulationManager.__init__` (lines 43-67): `_set_config`,
then `self.trial` and `np.random.seed(self.trial)`, then the `setattr` loop
materializing every merged parameter, then `_setup_directories`, then
`_save_config`. -/
def init (store : Store) (src : ConfigSource) (dp : Attr) (seed : Option Int)
    (log_info : Option String) (env : Env) : InitResult :=
  match set_config store src dp env with
  | .error e => ⟨.error e, store, []⟩
  | .ok (store1, cfgRef, cfg, params) =>
    let trial := trialOf seed
    let ev0 := [Event.seedRandom trial]
    let attrs := params
    match setup_directories cfg trial log_info env with
    | (.error e, evs) => ⟨.error e, store1, ev0 ++ evs⟩
    | (.ok dirs, evs) =>
      let sc := save_config store1 cfgRef params dirs.sim_path
      ⟨.ok { configRef := cfgRef, params := params, attrs := attrs,
             trial := trial, data_loc := dirs.data_loc,
             sim_dir := dirs.sim_dir, sim_path := dirs.sim_path,
             hdf5_path := dirs.hdf5_path },
       sc.1, ev0 ++ evs ++ sc.2⟩

end SimulationManager

/-- Replay of the textual file effects in an event trace: opening for writing
truncates, a write appends to the current content. -/
def applyEvent (fs : String → Option String) (e : Event) :
    String → Option String :=
  match e with
  | .openTrunc p => fun q => if q = p then some "" else fs q
  | .fileWrite p s => fun q => if q = p then some ((fs p).getD "" ++ s) else fs q
  | _ => fs

/-- Final content of each text file after a trace of events. -/
def fsContents (evs : List Event) : String → Option String :=
  evs.foldl applyEvent (fun _ => none)

namespace FHN

/-- The `FHN.default_params` class attribute (src/example.py lines 9-17),
with the float literals represented as rationals. -/
def default_params : Dict :=
  [("a", .vnum (7/10)), ("b", .vnum (4/5)), ("tau", .vnum (25/2)),
   ("I", .vnum (1/2)), ("dt", .vnum (1/100)),
   ("y0", .vlist [.vnum (1/10), .vnum 0]), ("tend", .vint 100)]

end FHN

/-- The literal config dict of the example entry point (src/example.py
lines 83-92). -/
def exampleConfig : Dict :=
  [("description", .vstr "Testing"), ("sim_dir", .vstr "dfgdfg"),
   ("data_loc", .vstr "data/"),
   ("params", .vdict [("tend", .vint 200), ("b", .vnum 1),
     ("y0", .vlist [.vnum (1/10), .vnum (1/2)])])]

/-- The warning the example entry point prints on a non-integer seed. -/
def warnMsg : String := "Invalid seed (must be integer). Setting, seed = 42"

/-- Embedding of the seed handling of the example entry point (src/example.py
lines 94-100): `args` is `sys.argv[1:]`; the result is the chosen seed and
the lines printed to standard output. A missing first argument (IndexError)
falls back to 42 silently; a non-integer one (ValueError) prints the warning
and falls back to 42. -/
def mainSeed (args : List String) : Int × List String :=
  match args with
  | [] => (42, [])
  | a :: _ =>
    match pyIntParse a with
    | some n => (n, [])
    | none => (42, [warnMsg])

theorem dlookup_dset (d : Dict) (k : String) (v : Value) (q : String) :
    dlookup (dset d k v) q = if q = k then some v else dlookup d q := by
  induction d with
  | nil =>
    by_cases h : k = q
    · subst h; simp [dset, dlookup]
    · have h' : ¬q = k := fun hh => h hh.symm
      simp [dset, dlookup, h, h']
  | cons hd tl ih =>
    obtain ⟨k0, v0⟩ := hd
    by_cases h0 : k0 = k
    · subst h0
      by_cases h : k0 = q
      · subst h; simp [dset, dlookup]
      · have h' : ¬q = k0 := fun hh => h hh.symm
        simp [dset, dlookup, h, h']
    · by_cases h : k0 = q
      · subst h
        simp [dset, dlookup, h0]
      · simp [dset, dlookup, h0, h, ih]

theorem dlookup_eq_none_of_not_mem (d : Dict) (k : String)
    (h : k ∉ d.map Prod.fst) : dlookup d k = none := by
  induction d with
  | nil => rfl
  | cons hd tl ih =>
    obtain ⟨k0, v0⟩ := hd
    simp only [List.map_cons, List.mem_cons] at h
    push_neg at h
    have h' : ¬k0 = k := fun hh => h.1 hh.symm
    simp [dlookup, h', ih h.2]

theorem dlookup_dupdate (d u : Dict) (hu : (u.map Prod.fst).Nodup)
    (k : String) :
    dlookup (dupdate d u) k =
      match dlookup u k with
      | some v => some v
      | none => dlookup d k := by
  induction u generalizing d with
  | nil => simp [dupdate, dlookup]
  | cons hd tl ih =>
    obtain ⟨k0, v0⟩ := hd
    simp only [List.map_cons, List.nodup_cons] at hu
    have step : dupdate d ((k0, v0) :: tl) = dupdate (dset d k0 v0) tl := rfl
    rw [step, ih (dset d k0 v0) hu.2 ]
    by_cases h : k0 = k
    · subst h
      rw [dlookup_eq_none_of_not_mem tl k0 hu.1]
      simp [dlookup, dlookup_dset]
    · have h' : ¬k = k0 := fun hh => h hh.symm
      have hl : dlookup ((k0, v0) :: tl) k = dlookup tl k := by
        simp [dlookup, h]
      rw [hl]
      cases dlookup tl k with
      | some v => simp
      | none => simp [dlookup_dset, h']

theorem getD_set_self (l : Store) (r : Nat) (d : Dict) (h : r < l.length) :
    (l.set r d).getD r [] = d := by
  induction l generalizing r with
  | nil => simp at h
  | cons hd tl ih =>
    cases r with
    | zero => rfl
    | succ n =>
      simp only [List.length_cons, Nat.succ_lt_succ_iff] at h
      show (tl.set n d).getD n [] = d
      exact ih n h

/-- A world with no existing files and a fixed clock, for concrete runs. -/
def env0 : Env := ⟨fun _ => none, "20250101_120000"⟩

def dflt1 : Dict := [("a", .vint 1), ("b", .vint 0)]

def ps1 : Dict := [("b", .vint 2), ("c", .vint 3)]

def cfg1 : Dict :=
  [("params", .vdict ps1), ("data_loc", .vstr "data"),
   ("description", .vstr "d")]

def store1 : Store := [cfg1]

def res1 : InitResult :=
  SimulationManager.init store1 (.ref 0) (.attrDict dflt1) (some 5) (some "")
    env0

def mgr1 : Mgr :=
  match res1.result with
  | .ok m => m
  | .error _ => ⟨0, [], [], 0, "", "", "", ""⟩

def st1 : Store := res1.store

def evs1 : List Event := res1.events

/-- Claim C1: for every configuration accepted at construction, the resolved
parameter mapping equals a shallow copy of the subclass defaults overlaid
with every key of the config params dict: the config value wins on
overlapping keys, keys absent from the defaults are admitted unchanged, and
the key set of the result is the union of the two key sets. -/
theorem C1_resolved_params_merge
    (store : Store) (r : Nat) (dflt ps : Dict) (seed : Option Int)
    (log_info : Option String) (env : Env) (m : Mgr) (st : Store)
    (evs : List Event)
    (hps : dlookup (store.getD r []) "params" = some (.vdict ps))
    (hnd : (ps.map Prod.fst).Nodup)
    (h : SimulationManager.init store (.ref r) (.attrDict dflt) seed log_info
        env = ⟨.ok m, st, evs⟩) :
    (∀ k, dlookup m.params k =
      match dlookup ps k with
      | some v => some v
      | none => dlookup dflt k) ∧
    (∀ k, (dlookup m.params k).isSome
        ↔ ((dlookup dflt k).isSome ∨ (dlookup ps k).isSome)) := by
  have hm : m.params = dupdate dflt ps := by
    simp only [SimulationManager.init, SimulationManager.set_config, hps] at h
    split at h
    · simp at h
    · simp only [InitResult.mk.injEq, Except.ok.injEq] at h
      rw [← h.1]
  constructor
  · intro k
    rw [hm, dlookup_dupdate dflt ps hnd k]
  · intro k
    rw [hm, dlookup_dupdate dflt ps hnd k]
    cases dlookup ps k with
    | some v => simp
    | none => simp

theorem C1_resolved_params_merge_witness :
    dlookup mgr1.params "b" =
      match dlookup ps1 "b" with
      | some v => some v
      | none => dlookup dflt1 "b" :=
  (C1_resolved_params_merge store1 0 dflt1 ps1 (some 5) (some "") env0 mgr1
    st1 evs1 (by rfl) (by decide) (by rfl)).1 "b"

/-- Claim C3: for every input that is neither a dict nor a string naming an
existing file, construction fails with the ValueError of `_set_config`, and
the event trace is empty: nothing was seeded, no directory was created and no
file was opened or written. -/
theorem C3_invalid_source_no_mutation (store : Store) (dp : Attr)
    (seed : Option Int) (log_info : Option String) (env : Env) :
    (SimulationManager.init store .other dp seed log_info env
        = ⟨.error (.valueError configErrMsg), store, []⟩) ∧
    (∀ p, env.files p = none →
      SimulationManager.init store (.path p) dp seed log_info env
        = ⟨.error (.valueError configErrMsg), store, []⟩) := by
  constructor
  · rfl
  · intro p hp
    simp [SimulationManager.init, SimulationManager.set_config, hp]

theorem C3_invalid_source_no_mutation_witness :
    SimulationManager.init [] .other .absent none none env0
        = ⟨.error (.valueError configErrMsg), [], []⟩ ∧
    SimulationManager.init [] (.path "missing.json") .absent none none env0
        = ⟨.error (.valueError configErrMsg), [], []⟩ :=
  ⟨(C3_invalid_source_no_mutation [] .absent none none env0).1,
   (C3_invalid_source_no_mutation [] .absent none none env0).2
     "missing.json" (by rfl)⟩

def cfg4 : Dict :=
  [("data_loc", .vstr "data"), ("description", .vstr "d"),
   ("params", .vdict [("x", .vint 1)])]

def isOk : Except PyError Mgr → Bool
  | .ok _ => true
  | .error _ => false

/-- Claim C4 counterexample: a subclass whose `default_params` is the empty
dict — hence not a non-empty mapping — is accepted: construction succeeds,
so no ContractError/AssertionError is raised. The assert at
src/manager.py line 89 only checks `isinstance(..., dict)`, never
non-emptiness. -/
theorem C4_empty_defaults_accepted :
    isOk (SimulationManager.init [cfg4] (.ref 0) (.attrDict []) (some 3)
      (some "") env0).result = true := by rfl

/-- Claim C4 (amended): every subclass invoking construction must expose a
`default_params` attribute bound to a dict (which may be empty); when the
attribute is absent or not a dict and the config source is a dict,
construction fails with the AssertionError of the contract check, before any
seeding, directory provisioning or file write (empty event trace). -/
theorem C4_default_params_assert (store : Store) (r : Nat) (dp : Attr)
    (seed : Option Int) (log_info : Option String) (env : Env)
    (hdp : ∀ d, dp ≠ Attr.attrDict d) :
    SimulationManager.init store (.ref r) dp seed log_info env
        = ⟨.error (.assertionError assertMsg), store, []⟩ := by
  cases dp with
  | absent => rfl
  | nonDict v => rfl
  | attrDict d => exact absurd rfl (hdp d)

theorem C4_default_params_assert_witness :
    SimulationManager.init [cfg4] (.ref 0) .absent (some 3) (some "") env0
        = ⟨.error (.assertionError assertMsg), [cfg4], []⟩ :=
  C4_default_params_assert [cfg4] 0 .absent (some 3) (some "") env0
    (fun _ h => Attr.noConfusion h)

def cfg8 : Dict := [("data_loc", .vstr "data")]

/-- Claim C8: when the resolved configuration has no `params` key,
construction fails with the propagated missing-key error (KeyError
"params"), before any seeding or filesystem mutation. -/
theorem C8_missing_params_key (store : Store) (r : Nat) (dflt : Dict)
    (seed : Option Int) (log_info : Option String) (env : Env)
    (h : dlookup (store.getD r []) "params" = none) :
    SimulationManager.init store (.ref r) (.attrDict dflt) seed log_info env
        = ⟨.error (.keyError "params"), store, []⟩ := by
  simp only [SimulationManager.init, SimulationManager.set_config, h]

theorem C8_missing_params_key_witness :
    SimulationManager.init [cfg8] (.ref 0) (.attrDict [("a", .vint 1)]) none
        none env0 = ⟨.error (.keyError "params"), [cfg8], []⟩ :=
  C8_missing_params_key [cfg8] 0 [("a", .vint 1)] none none env0 (by rfl)

/-- Claim C7: for every successful construction, the trial identifier is the
seed when the seed is a non-zero integer and 1 when the seed is 0 or None,
and the first side effect is seeding the process-wide pseudo-random
generator with exactly that trial value. -/
theorem C7_trial_and_rng_seed (store : Store) (src : ConfigSource)
    (dp : Attr) (seed : Option Int) (log_info : Option String) (env : Env)
    (m : Mgr) (st : Store) (evs : List Event)
    (h : SimulationManager.init store src dp seed log_info env
        = ⟨.ok m, st, evs⟩) :
    ((∀ n, seed = some n → n ≠ 0 → m.trial = n) ∧
     ((seed = none ∨ seed = some 0) → m.trial = 1)) ∧
    evs.head? = some (.seedRandom m.trial) := by
  have key : m.trial = SimulationManager.trialOf seed ∧
      evs.head? = some (.seedRandom (SimulationManager.trialOf seed)) := by
    simp only [SimulationManager.init] at h
    split at h
    · simp at h
    · split at h
      · simp at h
      · simp only [InitResult.mk.injEq, Except.ok.injEq] at h
        obtain ⟨h1, h2, h3⟩ := h
        refine ⟨by rw [← h1], ?_⟩
        rw [← h3]
        rfl
  refine ⟨⟨?_, ?_⟩, ?_⟩
  · intro n hn hnz
    rw [key.1, hn]
    simp [SimulationManager.trialOf, hnz]
  · intro hcase
    rcases hcase with hc | hc <;> rw [key.1, hc] <;>
      simp [SimulationManager.trialOf]
  · rw [key.1]
    exact key.2

theorem C7_trial_and_rng_seed_witness : mgr1.trial = 5 :=
  ((C7_trial_and_rng_seed store1 (.ref 0) (.attrDict dflt1) (some 5)
      (some "") env0 mgr1 st1 evs1 (by rfl)).1.1) 5 rfl (by decide)

/-- Claim C9: when the `log_info` argument is None and the configuration has
`params` and `data_loc` entries (as in the FHN example, whose declared
default is `log_info=None`), construction raises TypeError at the membership
test of `_setup_directories`: the trace shows the random generator already
seeded with the trial, and no directory or file event. -/
theorem C9_none_log_info_typeerror (store : Store) (r : Nat) (dflt ps : Dict)
    (seed : Option Int) (env : Env) (dlv : Value)
    (hps : dlookup (store.getD r []) "params" = some (.vdict ps))
    (hdl : dlookup (store.getD r []) "data_loc" = some dlv) :
    SimulationManager.init store (.ref r) (.attrDict dflt) seed none env
        = ⟨.error (.typeError noneIterableMsg), store,
           [.seedRandom (SimulationManager.trialOf seed)]⟩ := by
  simp only [SimulationManager.init, SimulationManager.set_config, hps,
    SimulationManager.setup_directories, hdl]
  rfl

theorem C9_none_log_info_typeerror_witness :
    SimulationManager.init [exampleConfig] (.ref 0)
        (.attrDict FHN.default_params) (some 42) none env0
      = ⟨.error (.typeError noneIterableMsg), [exampleConfig],
         [.seedRandom 42]⟩ :=
  C9_none_log_info_typeerror [exampleConfig] 0 FHN.default_params
    [("tend", .vint 200), ("b", .vnum 1),
     ("y0", .vlist [.vnum (1/10), .vnum (1/2)])]
    (some 42) env0 (.vstr "data/") (by rfl) (by rfl)

/-- Claim C10: construction from an in-memory dict aliases the caller dict
object (the manager holds the caller reference, not a copy) and mutates it:
afterwards its `params` entry is the merged resolved-parameters dict, while
every other top-level entry is unchanged. -/
theorem C10_config_dict_aliased_and_mutated (store : Store) (r : Nat)
    (dflt ps : Dict) (seed : Option Int) (log_info : Option String)
    (env : Env) (m : Mgr) (st : Store) (evs : List Event)
    (hr : r < store.length)
    (hps : dlookup (store.getD r []) "params" = some (.vdict ps))
    (h : SimulationManager.init store (.ref r) (.attrDict dflt) seed log_info
        env = ⟨.ok m, st, evs⟩) :
    m.configRef = r ∧
    dlookup (st.getD r []) "params" = some (.vdict m.params) ∧
    (∀ k, k ≠ "params" →
      dlookup (st.getD r []) k = dlookup (store.getD r []) k) := by
  simp only [SimulationManager.init, SimulationManager.set_config, hps] at h
  split at h
  · simp at h
  · simp only [InitResult.mk.injEq, Except.ok.injEq] at h
    obtain ⟨h1, h2, h3⟩ := h
    have hst : st.getD r []
        = dset (store.getD r []) "params" (.vdict m.params) := by
      rw [← h2, ← h1]
      simp only [SimulationManager.save_config]
      exact getD_set_self store r _ hr
    refine ⟨by rw [← h1], ?_, ?_⟩
    · rw [hst, dlookup_dset]
      simp
    · intro k hk
      rw [hst, dlookup_dset]
      simp [hk]

theorem C10_config_dict_aliased_and_mutated_witness :
    mgr1.configRef = 0 ∧
    dlookup (st1.getD 0 []) "params" = some (.vdict mgr1.params) ∧
    dlookup (st1.getD 0 []) "data_loc" = dlookup (store1.getD 0 []) "data_loc"
    := by
  have hc := C10_config_dict_aliased_and_mutated store1 0 dflt1 ps1
    (some 5) (some "") env0 mgr1 st1 evs1 (by decide) (by rfl) (by rfl)
  exact ⟨hc.1, hc.2.1, hc.2.2 "data_loc" (by decide)⟩

theorem setup_directories_ok_shape (cfg : Dict) (trial : Int) (li : String)
    (env : Env) (dirs : DirsOut) (evs : List Event)
    (h : SimulationManager.setup_directories cfg trial (some li) env
        = (.ok dirs, evs)) :
    dlookup cfg "data_loc" = some (.vstr dirs.data_loc) ∧
    Value.vstr dirs.sim_dir = SimulationManager.resolveSimDirV cfg li env ∧
    dirs.sim_path
      = joinPath (joinPath dirs.data_loc dirs.sim_dir)
          ("trial_" ++ toString trial) := by
  simp only [SimulationManager.setup_directories] at h
  split at h
  · simp at h
  · split at h
    · split at h
      · simp at h
      · split at h
        · simp at h
        · simp only [Prod.mk.injEq, Except.ok.injEq] at h
          obtain ⟨hd, he⟩ := h
          subst hd
          refine ⟨?_, ?_, rfl⟩ <;> simp_all
    · simp at h

/-- Claim C6: for every construction reaching directory setup, the directory
name is chosen in order — the literal "test" when the run-mode string
indicates a test run, else the configured `sim_dir` when present and truthy,
else the timestamp name `sim_<now>` — and the simulation path is the join of
`config data_loc`, that directory name, and `trial_<trial>`. -/
theorem C6_sim_dir_and_path (cfg : Dict) (trial : Int) (li : String)
    (env : Env) (dirs : DirsOut) (evs : List Event)
    (h : SimulationManager.setup_directories cfg trial (some li) env
        = (.ok dirs, evs)) :
    (strHasSub li "test" = true → dirs.sim_dir = "test") ∧
    (strHasSub li "test" = false →
      ∀ v, dlookup cfg "sim_dir" = some v → truthy v = true →
        v = .vstr dirs.sim_dir) ∧
    (strHasSub li "test" = false →
      (dlookup cfg "sim_dir" = none ∨
        (∃ v, dlookup cfg "sim_dir" = some v ∧ truthy v = false)) →
      dirs.sim_dir = "sim_" ++ env.now) ∧
    dlookup cfg "data_loc" = some (.vstr dirs.data_loc) ∧
    dirs.sim_path = joinPath (joinPath dirs.data_loc dirs.sim_dir)
      ("trial_" ++ toString trial) := by
  obtain ⟨hdl, hsd, hsp⟩ :=
    setup_directories_ok_shape cfg trial li env dirs evs h
  refine ⟨?_, ?_, ?_, hdl, hsp⟩
  · intro ht
    simp [SimulationManager.resolveSimDirV, ht] at hsd
    exact hsd
  · intro ht v hv htr
    simp [SimulationManager.resolveSimDirV, ht, hv, htr] at hsd
    exact hsd.symm
  · intro ht hcase
    rcases hcase with hn | ⟨v, hv, hf⟩
    · simp [SimulationManager.resolveSimDirV, ht, hn] at hsd
      exact hsd
    · simp [SimulationManager.resolveSimDirV, ht, hv, hf] at hsd
      exact hsd

def cfg6 : Dict :=
  [("data_loc", .vstr "data"), ("sim_dir", .vstr "run1"),
   ("description", .vstr "t"), ("params", .vdict [])]

def dirs6 : DirsOut :=
  match (SimulationManager.setup_directories cfg6 7 (some "") env0).1 with
  | .ok d => d
  | .error _ => ⟨"", "", "", "", ""⟩

def evs6 : List Event :=
  (SimulationManager.setup_directories cfg6 7 (some "") env0).2

theorem C6_sim_dir_and_path_witness :
    dirs6.sim_path = joinPath (joinPath dirs6.data_loc dirs6.sim_dir)
      ("trial_" ++ toString (7 : Int)) :=
  (C6_sim_dir_and_path cfg6 7 "" env0 dirs6 evs6 (by rfl)).2.2.2.2

def cfg2 : Dict :=
  [("data_loc", .vstr "data/"), ("sim_dir", .vstr "run1"),
   ("params", .vdict [])]

/-- Claim C2 at the failing input (config without a `description` key): the
stray debug line `print(self.config[\x27description\x27])` at
src/manager.py line 123 raises KeyError after the Readme file has already
been opened for writing (truncated), so the fallback literal is never
written: construction ends with KeyError "description", the Readme content
is the empty string, and the trace holds no fileWrite event at all —
contradicting the documented fallback behaviour for an absent description. -/
theorem C2_missing_description_keyerror :
    (SimulationManager.init [cfg2] (.ref 0) (.attrDict FHN.default_params)
        (some 7) (some "") env0).result = .error (.keyError "description") ∧
    fsContents (SimulationManager.init [cfg2] (.ref 0)
        (.attrDict FHN.default_params) (some 7) (some "") env0).events
        "data/run1/Readme.md" = some "" ∧
    (SimulationManager.init [cfg2] (.ref 0) (.attrDict FHN.default_params)
        (some 7) (some "") env0).events
      = [.seedRandom 7, .makedirs "data/run1/trial_7",
         .logBasicConfig "data/run1/trial_7/sim.log" false,
         .openTrunc "data/run1/Readme.md"] :=
  ⟨rfl, rfl, rfl⟩

/-- Claim C5 counterexample: with no command-line argument the example entry
point silently defaults to seed 42: the list of lines printed to standard
output is empty, so no warning accompanies the missing-argument case. -/
theorem C5_missing_arg_is_silent :
    (mainSeed []).1 = 42 ∧ (mainSeed []).2 = [] :=
  ⟨rfl, rfl⟩

/-- Claim C5 (amended): a valid integer first argument is used as the seed;
a first argument that is not a valid integer defaults the seed to 42 and
prints the warning to standard output; a missing first argument defaults the
seed to 42 silently, printing nothing. -/
theorem C5_seed_argument_handling :
    mainSeed [] = (42, []) ∧
    (∀ a rest n, pyIntParse a = some n → mainSeed (a :: rest) = (n, [])) ∧
    (∀ a rest, pyIntParse a = none →
      mainSeed (a :: rest) = (42, [warnMsg])) := by
  refine ⟨rfl, ?_, ?_⟩ <;> intros <;> simp [mainSeed, *]

theorem C5_seed_argument_handling_witness :
    mainSeed ["7"] = (7, []) ∧ mainSeed ["abc"] = (42, [warnMsg]) :=
  ⟨C5_seed_argument_handling.2.1 "7" [] 7 (by decide),
   C5_seed_argument_handling.2.2 "abc" [] (by decide)⟩
